import Mathlib

/-!
Shallow embedding of the real-estate aggregation pipeline
(`real_estate_tool.py` / `real_estate_agent.py`) and proofs about it.

Python strings are modelled as `String` / `List Char`, Python floats as `ℚ`,
Python dicts of known shape as structures with `Option` fields, and the
outbound HTTP provider as an oracle function from request parameters to a
response (either a list of raw records, or a raised exception).
-/

namespace RealEstate

/-! ### Basic Python string helpers -/

/-- Python `str.lower()` restricted to ASCII, which is all the code relies on. -/
def pyLower (s : String) : List Char := s.toList.map Char.toLower

/-- Python whitespace class `\s` (ASCII part). -/
def isWsC (c : Char) : Bool :=
  c = ' ' || c = '\t' || c = '\n' || c = '\r' || c = '\x0b' || c = '\x0c'

/-- ASCII digit test for the regex character class `\d`. -/
def isDigitC (c : Char) : Bool := '0' ≤ c && c ≤ '9'

/-- Python `str.strip()` (ASCII whitespace). -/
def pyStrip (s : String) : List Char :=
  ((s.toList.dropWhile isWsC).reverse.dropWhile isWsC).reverse

/-- Substring containment test, as Python `sub in s`. -/
def containsSub (sub : List Char) : List Char → Bool
  | [] => sub.isEmpty
  | a :: rest => sub.isPrefixOf (a :: rest) || containsSub sub rest

/-- Match a literal; on success return the remaining input. -/
def litP : List Char → List Char → Option (List Char)
  | [], s => some s
  | _, [] => none
  | p :: ps, c :: cs => if c = p then litP ps cs else none

/-! ### Python `float()` on digit strings

The regex groups below contain only digits, dots and commas, so the model of
`float()` only needs the decimal forms `\d+`, `\d+.`, `\d+.\d+`, `.\d+`. -/

/-- Numeric value of a digit list. -/
def digitsToNat (l : List Char) : Nat :=
  l.foldl (fun a c => a * 10 + (c.toNat - 48)) 0

/-- Python `float(s)` for strings made of digits and dots: `some` value on a
well-formed decimal literal, `none` when `float` would raise `ValueError`. -/
def parseDigitsDots (s : List Char) : Option ℚ :=
  let intPart := s.takeWhile isDigitC
  let rest := s.dropWhile isDigitC
  match rest with
  | [] => if intPart.isEmpty then none else some (digitsToNat intPart : ℚ)
  | '.' :: frac =>
      if frac.all isDigitC then
        if intPart.isEmpty && frac.isEmpty then none
        else some ((digitsToNat intPart : ℚ) +
          (digitsToNat frac : ℚ) / ((10 : ℚ) ^ frac.length))
      else none
  | _ => none

/-- Python `int()` on a float, truncation toward zero. -/
def pyInt (q : ℚ) : ℤ := if 0 ≤ q then ⌊q⌋ else ⌈q⌉

/-- Round half to even on an exact rational, as Python `round` on a float
whose value is exact. -/
def roundHalfEven (q : ℚ) : ℤ :=
  let f := ⌊q⌋
  let r := q - f
  if r < 1/2 then f
  else if 1/2 < r then f + 1
  else if Even f then f else f + 1

/-- Python `round(x, 2)` on an exact rational. -/
def pyRound2 (q : ℚ) : ℚ := (roundHalfEven (q * 100) : ℚ) / 100

/-! ### The two budget regular expressions

`extract_budget` runs `re.search` with the patterns
`under\s+([\d\.]+)\s*M(?:illion)?\s*AED` and `under\s+([\d,]+)\s*AED`
(case-insensitively, on the lowercased query).  Both start with a literal,
their character classes are pairwise disjoint with what follows, so the
leftmost match is found by trying each start position in order with maximal
munch, the optional `illion` being the only backtracking point. -/

/-- Tail `\s*AED` of both patterns (lowercased input). -/
def aedTail (s : List Char) : Bool :=
  (litP "aed".toList (s.dropWhile isWsC)).isSome

/-- Group of `under\s+([\d\.]+)\s*M(?:illion)?\s*AED` anchored at the start of
`s`, when the pattern matches there. -/
def millionAt (s : List Char) : Option (List Char) :=
  match litP "under".toList s with
  | none => none
  | some r1 =>
    if (r1.takeWhile isWsC).isEmpty then none else
    let r2 := r1.dropWhile isWsC
    let grp := r2.takeWhile (fun c => isDigitC c || c = '.')
    if grp.isEmpty then none else
    let r3 := (r2.dropWhile (fun c => isDigitC c || c = '.')).dropWhile isWsC
    match litP "m".toList r3 with
    | none => none
    | some r4 =>
      let ok :=
        match litP "illion".toList r4 with
        | some r5 => aedTail r5 || aedTail r4
        | none => aedTail r4
      if ok then some grp else none

/-- `re.search` for the million pattern: leftmost matching start position. -/
def searchMillion : List Char → Option (List Char)
  | [] => none
  | s@(_ :: rest) =>
    match millionAt s with
    | some g => some g
    | none => searchMillion rest

/-- Group of `under\s+([\d,]+)\s*AED` anchored at the start of `s`. -/
def plainAt (s : List Char) : Option (List Char) :=
  match litP "under".toList s with
  | none => none
  | some r1 =>
    if (r1.takeWhile isWsC).isEmpty then none else
    let r2 := r1.dropWhile isWsC
    let grp := r2.takeWhile (fun c => isDigitC c || c = ',')
    if grp.isEmpty then none else
    let r3 := r2.dropWhile (fun c => isDigitC c || c = ',')
    if aedTail r3 then some grp else none

/-- `re.search` for the plain-digits pattern. -/
def searchPlain : List Char → Option (List Char)
  | [] => none
  | s@(_ :: rest) =>
    match plainAt s with
    | some g => some g
    | none => searchPlain rest

/-! ### Parameter extraction (`real_estate_agent.py`) -/

/-- `NEIGHBORHOOD_SCHOOLS`, in the dict's insertion order. -/
def NEIGHBORHOOD_SCHOOLS : List (String × List String) :=
  [("arabian ranches",
    ["JESS (Jumeirah English Speaking School)", "Nord Anglia International School",
     "Ranches Primary School", "Ranches Nursery"]),
   ("dubai hills estate",
    ["GEMS World Academy", "Safa Community School", "Kings' School Al Barsha",
     "GEMS Wellington Academy", "GEMS International School", "Brighton College Dubai",
     "Dubai Heights Academy", "GEMS New Millennium School"]),
   ("mirdif",
    ["GEMS Royal Dubai School", "Dar Al Marefa", "Uptown International School"]),
   ("jumeirah",
    ["Dubai International Academy", "Jumeirah College", "GEMS Jumeirah Primary School"]),
   ("palm jumeirah",
    ["Dubai American Academy", "Swiss International Scientific School"]),
   ("al furjan", ["Arbor School"]),
   ("emirates hills",
    ["Dubai British School", "Emirates International School", "GEMS Wellington Academy"])]

/-- The neighborhood keys, in iteration order. -/
def nbKeys : List String := NEIGHBORHOOD_SCHOOLS.map Prod.fst

/-- `extract_neighborhood`: first key that is a substring of the lowercased query. -/
def extract_neighborhood (query : String) : Option String :=
  nbKeys.find? (fun nb => containsSub nb.toList (pyLower query))

/-- Error-explicit model of `extract_budget`: `Except.error` marks an exception
escaping the function, which the `try`/`except` blocks in the source prevent. -/
def plainBranchE (s : List Char) : Except String (Option ℚ) :=
  match searchPlain s with
  | some g =>
      match parseDigitsDots (g.filter (fun c => c ≠ ',')) with
      | some v => Except.ok (some v)
      | none => Except.ok none
  | none => Except.ok none

/-- `extract_budget` with exceptions made explicit; the million pattern is
tried first, a `float` failure inside it falls through to the plain pattern. -/
def extract_budgetE (query : String) : Except String (Option ℚ) :=
  match searchMillion (pyLower query) with
  | some g =>
      match parseDigitsDots g with
      | some v => Except.ok (some (v * 1000000))
      | none => plainBranchE (pyLower query)
  | none => plainBranchE (pyLower query)

/-- `extract_budget`: budget in AED, or `none`. -/
def extract_budget (query : String) : Option ℚ :=
  match extract_budgetE query with
  | Except.ok r => r
  | Except.error _ => none

/-- `extract_purpose`: "rent" iff the lowercased query contains "rent". -/
def extract_purpose (query : String) : String :=
  if containsSub "rent".toList (pyLower query) then "rent" else "sale"

/-! ### Provider adapter (`real_estate_tool.py`) -/

/-- `PROPERTY_TYPE_IDS`. -/
def PROPERTY_TYPE_IDS : List (String × String) :=
  [("apartment", "4"), ("villa", "16"), ("townhouse", "17"), ("penthouse", "19"),
   ("office", "7"), ("shop", "6"), ("warehouse", "8"), ("labour camp", "12"),
   ("bulk unit", "18"), ("floor", "21"), ("building", "14"), ("factory", "11"),
   ("industrial land", "22"), ("mixed use land", "23"), ("showroom", "10"),
   ("land", "9"), ("other commercial", "24")]

/-- `DUBAI_VILLA_NEIGHBORHOODS`: declared in the source, referenced nowhere. -/
def DUBAI_VILLA_NEIGHBORHOODS : List String :=
  ["Dubai Hills Estate", "Arabian Ranches", "Palm Jumeirah", "Emirates Hills",
   "The Villa", "Jumeirah Park", "Damac Lagoons", "Tilal Al Ghaf"]

/-- `location_map`. -/
def location_map : List (String × String) :=
  [("downtown dubai", "5002"), ("dubai marina", "5002"), ("mirdif", "5002"),
   ("arabian ranches", "5002"), ("dubai hills estate", "5002"), ("jumeirah", "5002"),
   ("palm jumeirah", "5002"), ("dubai", "5002")]

/-- `dict.get` on an association list. -/
def assocGet (m : List (String × String)) (k : String) : Option String :=
  (m.find? (fun p => p.1 = k)).map Prod.snd

/-- A JSON scalar that may sit in a price or area field. -/
inductive PyNum where
  | num (q : ℚ)
  | str (s : String)
deriving DecidableEq, Repr

/-- Python truthiness of such a scalar (`0`, `0.0`, `""` are falsy). -/
def truthyNum : PyNum → Bool
  | PyNum.num q => q ≠ 0
  | PyNum.str s => s ≠ ""

/-- Python `float()` coercion of such a scalar; `none` when it raises. -/
def floatTry : PyNum → Option ℚ
  | PyNum.num q => some q
  | PyNum.str s => parseDigitsDots s.toList

/-- One breadcrumb entry (`category` / `location` list elements). -/
structure Crumb where
  name : Option String
deriving DecidableEq, Repr

/-- `geography` subobject. -/
structure Geo where
  lat : Option ℚ
  lng : Option ℚ
deriving DecidableEq, Repr

/-- `coverPhoto` subobject. -/
structure Cover where
  url : Option String
deriving DecidableEq, Repr

/-- A raw provider hit, with every field optional as the code assumes. -/
structure RawItem where
  category : Option (List Crumb) := none
  location : Option (List Crumb) := none
  price : Option PyNum := none
  rentFrequency : Option String := none
  area : Option PyNum := none
  size : Option PyNum := none
  coverPhoto : Option Cover := none
  externalID : Option String := none
  geography : Option Geo := none
  rooms : Option Int := none
  baths : Option Int := none
  title : Option String := none
deriving DecidableEq, Repr

/-- A record of the provider response: well-formed, or one whose field
accesses raise inside the per-item `try` (e.g. a non-dict breadcrumb). -/
inductive RawRecord where
  | item (it : RawItem)
  | malformed (msg : String)
deriving DecidableEq, Repr

/-- Outbound request parameters built by `fetch_properties`. -/
structure Params where
  locationExternalIDs : String
  purpose : String
  hitsPerPage : String
  categoryExternalID : Option String := none
  maxPrice : Option ℤ := none
  roomsMin : Option Int := none
  bathsMin : Option Int := none
deriving DecidableEq, Repr

/-- Provider response: parsed `hits`, or an exception from the request or
`resp.json()` (the outer `try`). -/
inductive ProvResp where
  | ok (hits : List RawRecord)
  | exn (msg : String)

/-- The outbound HTTP boundary as an oracle. -/
def Provider : Type := Params → ProvResp

/-- A normalized listing dict as appended to `results`. -/
structure Listing where
  type : String
  purpose : String
  price : Option PyNum
  rent_frequency : String
  location : String
  size : ℚ
  rooms : Option Int
  baths : Option Int
  latitude : Option ℚ
  longitude : Option ℚ
  title : String
  url : String
  image : String
deriving DecidableEq, Repr

/-- An element of the list `fetch_properties` returns: a normalized listing,
an error dict, or the "No properties found." message dict. -/
inductive OutRec where
  | listing (l : Listing)
  | errorRec (msg : String)
  | messageRec (msg : String)
deriving DecidableEq, Repr

/-- Last crumb's `name` with defaults: `d` when the list is missing, empty or
the element has no name (`category[-1].get("name", d) if category else d`). -/
def lastNameD (l : Option (List Crumb)) (d : String) : String :=
  match l with
  | none => d
  | some cs =>
      match cs.getLast? with
      | none => d
      | some e => e.name.getD d

/-- `item.get("area") or item.get("size") or 0`. -/
def areaChain (it : RawItem) : PyNum :=
  match it.area with
  | some a => if truthyNum a then a else
      (match it.size with
       | some b => if truthyNum b then b else PyNum.num 0
       | none => PyNum.num 0)
  | none =>
      match it.size with
      | some b => if truthyNum b then b else PyNum.num 0
      | none => PyNum.num 0

/-- Normalization of one well-formed raw item (lines 100-137 of the tool). -/
def normalizeItem (purpose : String) (it : RawItem) : Listing :=
  let eid := it.externalID.getD ""
  { type := lastNameD it.category "property"
    purpose := purpose
    price := it.price
    rent_frequency := it.rentFrequency.getD "N/A"
    location := lastNameD it.location ""
    size := (floatTry (areaChain it)).getD 0
    rooms := it.rooms
    baths := it.baths
    latitude := (it.geography.getD { lat := none, lng := none }).lat
    longitude := (it.geography.getD { lat := none, lng := none }).lng
    title := it.title.getD ""
    url := if eid ≠ "" then "https://www.bayut.com/property/details-" ++ eid ++ ".html" else ""
    image := ((it.coverPhoto.getD { url := none }).url).getD "" }

/-- Per-item loop body: a parsed listing, or the flagged parse error. -/
def normalizeRecord (purpose : String) : RawRecord → OutRec
  | RawRecord.item it => OutRec.listing (normalizeItem purpose it)
  | RawRecord.malformed m => OutRec.errorRec ("Error parsing property: " ++ m)

/-- Request parameters (`params` dict) for one call. -/
def mkParams (location purpose : String) (budget : Option ℚ) (category : Option String)
    (rooms baths : Option Int) : Params :=
  { locationExternalIDs := (assocGet location_map ⟨(pyStrip location).map Char.toLower⟩).getD "5002"
    purpose := "for-" ++ purpose
    hitsPerPage := "20"
    categoryExternalID := category.bind (fun c => assocGet PROPERTY_TYPE_IDS ⟨pyLower c⟩)
    maxPrice := budget.map pyInt
    roomsMin := rooms
    bathsMin := baths }

/-- `fetch_properties`, instrumented with the list of outbound requests it
issues (first component) next to its return value (second component). -/
def fetch_propertiesR (prov : Provider) (location purpose : String)
    (budget : Option ℚ := none) (category : Option String := none)
    (rooms baths : Option Int := none) : List Params × List OutRec :=
  if location = "" || purpose = "" then
    ([], [OutRec.errorRec "Missing required parameters: location and purpose"])
  else
    match prov (mkParams location purpose budget category rooms baths) with
    | ProvResp.exn e =>
        ([mkParams location purpose budget category rooms baths],
         [OutRec.errorRec ("API request failed: " ++ e)])
    | ProvResp.ok hits =>
        ([mkParams location purpose budget category rooms baths],
         if (hits.map (normalizeRecord purpose)).isEmpty
         then [OutRec.messageRec "No properties found."]
         else hits.map (normalizeRecord purpose))

/-- `fetch_properties` proper: just the returned list. -/
def fetch_properties (prov : Provider) (location purpose : String)
    (budget : Option ℚ := none) (category : Option String := none)
    (rooms baths : Option Int := none) : List OutRec :=
  (fetch_propertiesR prov location purpose budget category rooms baths).2

/-! ### Aggregator (`run_real_estate_agent`) -/

/-- `price_key` of the sort: `float(prop.get("price"))`, any exception ↦ +∞.
Error and message dicts have no price, hence +∞. -/
def price_key : OutRec → WithTop ℚ
  | OutRec.listing l =>
      match l.price with
      | some v =>
          match floatTry v with
          | some q => (q : WithTop ℚ)
          | none => (⊤ : WithTop ℚ)
      | none => (⊤ : WithTop ℚ)
  | OutRec.errorRec _ => (⊤ : WithTop ℚ)
  | OutRec.messageRec _ => (⊤ : WithTop ℚ)

/-- Stable insertion step: `x` goes after every element whose key is ≤ its
key, as in Python's stable `list.sort(key=...)`. -/
def insertK {α β : Type} [LinearOrder β] (key : α → β) (x : α) : List α → List α
  | [] => [x]
  | y :: ys => if key y ≤ key x then y :: insertK key x ys else x :: y :: ys

/-- Stable ascending sort by key, the model of `list.sort(key=...)`. -/
def sortK {α β : Type} [LinearOrder β] (key : α → β) (l : List α) : List α :=
  l.foldl (fun acc x => insertK key x acc) []

/-- The neighborhoods the agent loops over. -/
def neighborhoodsToSearch (user_query : String) : List String :=
  match extract_neighborhood user_query with
  | some nb => [nb]
  | none => nbKeys

/-- The collection loop: one `fetch_properties` call per neighborhood, each
returned dict appended tagged with its neighborhood. -/
def collectResults (prov : Provider) (purpose : String) (budget : Option ℚ) :
    List String → List (String × OutRec) → List (String × OutRec)
  | [], acc => acc
  | nb :: rest, acc =>
      collectResults prov purpose budget rest
        (acc ++ (fetch_properties prov nb purpose budget).map (fun r => (nb, r)))

/-- The requests the loop issues, in order. -/
def agentRequests (prov : Provider) (user_query : String) : List Params :=
  (neighborhoodsToSearch user_query).flatMap
    (fun nb =>
      (fetch_propertiesR prov nb (extract_purpose user_query) (extract_budget user_query)).1)

/-- Caller-visible outcome of one run: the "no properties found" terminal
print, or the top results handed to summarization. -/
inductive Outcome where
  | notFound
  | results (top : List (String × OutRec))
deriving DecidableEq, Repr

/-- Ranking: stable ascending sort by `price_key`, truncated to 20. -/
def rankResults (l : List (String × OutRec)) : List (String × OutRec) :=
  (sortK (fun t => price_key t.2) l).take 20

/-- `run_real_estate_agent` as a pure pipeline over the provider oracle. -/
def run_real_estate_agent (prov : Provider) (user_query : String) : Outcome :=
  if (collectResults prov (extract_purpose user_query) (extract_budget user_query)
        (neighborhoodsToSearch user_query) []).isEmpty
  then Outcome.notFound
  else Outcome.results (rankResults (collectResults prov (extract_purpose user_query)
        (extract_budget user_query) (neighborhoodsToSearch user_query) []))

/-! ### Formatter (`format_property`) -/

/-- The dict shape `format_property` reads from its argument. -/
structure FPItem where
  price : Option PyNum := none
  size : Option PyNum := none
  type : Option String := none
  location : Option String := none
deriving DecidableEq, Repr

/-- `size_sqm = item.get("size", 0) or 0.0`. -/
def fp_size_sqm (item : FPItem) : PyNum :=
  match item.size with
  | some v => if truthyNum v then v else PyNum.num 0
  | none => PyNum.num 0

/-- `size_sqft = round(size_sqm * 10.7639, 2)` under `try`; a string size
makes the multiplication raise, giving `None`. -/
def fp_size_sqft (item : FPItem) : Option ℚ :=
  match fp_size_sqm item with
  | PyNum.num q => some (pyRound2 (q * (107639 / 10000 : ℚ)))
  | PyNum.str _ => none

/-- Insert a thousands separator every three digits, input reversed. -/
def groupRev : Nat → List Char → List Char
  | _, [] => []
  | i, c :: cs =>
      if i ≠ 0 && i % 3 = 0 then ',' :: c :: groupRev (i + 1) cs
      else c :: groupRev (i + 1) cs

/-- Thousands grouping of a digit string. -/
def groupThousands (s : List Char) : List Char := (groupRev 0 s.reverse).reverse

/-- Rendering of a nonnegative rational with at most two decimals under
Python's `format(x, ",")` on a float of that exact value. -/
def fmtFloatG (q : ℚ) : String :=
  let t : Nat := ((q * 100).num).toNat
  let n : Nat := t / 100
  let f2 : Nat := t % 100
  String.mk (groupThousands (Nat.repr n).toList) ++
    (if f2 = 0 then ".0"
     else if f2 % 10 = 0 then "." ++ Nat.repr (f2 / 10)
     else if f2 < 10 then ".0" ++ Nat.repr f2
     else "." ++ Nat.repr f2)

/-- `size_str`: rendered converted area, or the "N/A" marker when the
conversion failed or gave a falsy value. -/
def fp_size_str (item : FPItem) : String :=
  match fp_size_sqft item with
  | some v => if v ≠ 0 then fmtFloatG v ++ " sq.m." else "N/A"
  | none => "N/A"

/-- Python `str.title()` (ASCII). -/
def titleCaseGo : Bool → List Char → List Char
  | _, [] => []
  | prevAlpha, c :: cs =>
      (if c.isAlpha && !prevAlpha then c.toUpper
       else if c.isAlpha then c.toLower else c) :: titleCaseGo c.isAlpha cs

/-- Python `str.title()` on a string. -/
def titleCase (s : String) : String := String.mk (titleCaseGo false s.toList)

/-- `format_property` with exceptions explicit: formatting a string price with
`:,.0f` raises, everything else produces the line. -/
def format_propertyE (item : FPItem) (neighborhood : String) : Except String String :=
  match item.price with
  | some (PyNum.str _) => Except.error "unsupported format string passed to str"
  | _ =>
    let price_str :=
      match item.price with
      | none => "N/A"
      | some (PyNum.num q) => String.mk (groupThousands (Nat.repr (roundHalfEven q).toNat).toList)
      | some (PyNum.str _) => ""
    Except.ok ("- 🏘️ " ++ item.type.getD "Property" ++ " in " ++
      item.location.getD (titleCase neighborhood) ++ ": AED " ++ price_str ++
      ", Size: " ++ fp_size_str item)

/-! ### Properties of the stable sort -/

theorem mem_insertK {α β : Type} [LinearOrder β] (key : α → β) (x a : α) (l : List α) :
    a ∈ insertK key x l ↔ a = x ∨ a ∈ l := by
  induction l with
  | nil => simp [insertK]
  | cons y ys ih =>
      by_cases h : key y ≤ key x
      · simp only [insertK, if_pos h, List.mem_cons, ih]
        tauto
      · simp only [insertK, if_neg h, List.mem_cons]

theorem insertK_perm {α β : Type} [LinearOrder β] (key : α → β) (x : α) (l : List α) :
    (insertK key x l).Perm (x :: l) := by
  induction l with
  | nil => simp [insertK]
  | cons y ys ih =>
      by_cases h : key y ≤ key x
      · simp only [insertK, if_pos h]
        exact (ih.cons y).trans (List.Perm.swap x y ys)
      · simp [insertK, if_neg h]

theorem pairwise_insertK {α β : Type} [LinearOrder β] (key : α → β) (x : α) (l : List α)
    (hl : l.Pairwise (fun a b => key a ≤ key b)) :
    (insertK key x l).Pairwise (fun a b => key a ≤ key b) := by
  induction l with
  | nil => simp [insertK]
  | cons y ys ih =>
      rcases List.pairwise_cons.mp hl with ⟨hy, hys⟩
      by_cases h : key y ≤ key x
      · simp only [insertK, if_pos h]
        refine List.pairwise_cons.mpr ⟨?_, ih hys⟩
        intro b hb
        rcases (mem_insertK key x b ys).mp hb with rfl | hb'
        · exact h
        · exact hy b hb'
      · simp only [insertK, if_neg h]
        have hxy : key x ≤ key y := le_of_not_le h
        refine List.pairwise_cons.mpr ⟨?_, hl⟩
        intro b hb
        rcases List.mem_cons.mp hb with rfl | hb'
        · exact hxy
        · exact hxy.trans (hy b hb')

theorem filter_insertK {α β : Type} [LinearOrder β] (key : α → β) (k : β) (x : α) (l : List α)
    (hl : l.Pairwise (fun a b => key a ≤ key b)) :
    (insertK key x l).filter (fun a => decide (key a = k)) =
      l.filter (fun a => decide (key a = k)) ++ (if key x = k then [x] else []) := by
  induction l with
  | nil => by_cases hk : key x = k <;> simp [insertK, hk]
  | cons y ys ih =>
      rcases List.pairwise_cons.mp hl with ⟨hy, hys⟩
      by_cases h : key y ≤ key x
      · simp only [insertK, if_pos h, List.filter_cons, ih hys]
        by_cases hyk : key y = k <;> simp [hyk]
      · simp only [insertK, if_neg h]
        have hlt : key x < key y := lt_of_not_le h
        by_cases hxk : key x = k
        · have hnil : (y :: ys).filter (fun a => decide (key a = k)) = [] := by
            refine List.filter_eq_nil_iff.mpr ?_
            intro a ha
            simp only [decide_eq_true_eq]
            rcases List.mem_cons.mp ha with rfl | ha'
            · intro hak
              have h1 : k < key a := hxk ▸ hlt
              rw [hak] at h1
              exact lt_irrefl _ h1
            · intro hak
              have h1 : k < key a := lt_of_lt_of_le (hxk ▸ hlt) (hy a ha')
              rw [hak] at h1
              exact lt_irrefl _ h1
          rw [List.filter_cons (x := x), hnil]
          simp [hxk]
        · simp [List.filter_cons, hxk]

theorem sortK_aux_pairwise {α β : Type} [LinearOrder β] (key : α → β) :
    ∀ (l acc : List α), acc.Pairwise (fun a b => key a ≤ key b) →
      (l.foldl (fun acc x => insertK key x acc) acc).Pairwise (fun a b => key a ≤ key b)
  | [], _, h => h
  | x :: l, acc, h => sortK_aux_pairwise key l _ (pairwise_insertK key x acc h)

theorem sortK_pairwise {α β : Type} [LinearOrder β] (key : α → β) (l : List α) :
    (sortK key l).Pairwise (fun a b => key a ≤ key b) :=
  sortK_aux_pairwise key l [] (by simp)

theorem sortK_aux_perm {α β : Type} [LinearOrder β] (key : α → β) :
    ∀ (l acc : List α), (l.foldl (fun acc x => insertK key x acc) acc).Perm (acc ++ l)
  | [], acc => by simp
  | x :: l, acc => by
      have h1 := sortK_aux_perm key l (insertK key x acc)
      refine h1.trans ?_
      have h2 : ((insertK key x acc) ++ l).Perm ((x :: acc) ++ l) :=
        (insertK_perm key x acc).append_right l
      refine h2.trans ?_
      simpa using List.perm_middle.symm

theorem sortK_perm {α β : Type} [LinearOrder β] (key : α → β) (l : List α) :
    (sortK key l).Perm l := by
  simpa using sortK_aux_perm key l []

theorem sortK_aux_filter {α β : Type} [LinearOrder β] (key : α → β) (k : β) :
    ∀ (l acc : List α), acc.Pairwise (fun a b => key a ≤ key b) →
      (l.foldl (fun acc x => insertK key x acc) acc).filter (fun a => decide (key a = k)) =
        acc.filter (fun a => decide (key a = k)) ++ l.filter (fun a => decide (key a = k))
  | [], acc, _ => by simp
  | x :: l, acc, h => by
      have ih := sortK_aux_filter key k l (insertK key x acc) (pairwise_insertK key x acc h)
      show (l.foldl (fun acc x => insertK key x acc) (insertK key x acc)).filter _ = _
      rw [ih, filter_insertK key k x acc h, List.filter_cons]
      by_cases hxk : key x = k <;> simp [hxk]

/-- Stability of the sort: elements of any fixed key keep their original
relative order. -/
theorem sortK_filter {α β : Type} [LinearOrder β] (key : α → β) (k : β) (l : List α) :
    (sortK key l).filter (fun a => decide (key a = k)) =
      l.filter (fun a => decide (key a = k)) := by
  simpa using sortK_aux_filter key k l [] (by simp)

/-! ### Properties of the collection loop -/

theorem collectResults_acc (prov : Provider) (purpose : String) (budget : Option ℚ) :
    ∀ (nbs : List String) (acc : List (String × OutRec)),
      collectResults prov purpose budget nbs acc =
        acc ++ collectResults prov purpose budget nbs []
  | [], acc => by simp [collectResults]
  | nb :: rest, acc => by
      show collectResults prov purpose budget rest
            (acc ++ (fetch_properties prov nb purpose budget).map (fun r => (nb, r))) =
          acc ++ collectResults prov purpose budget rest
            ([] ++ (fetch_properties prov nb purpose budget).map (fun r => (nb, r)))
      rw [collectResults_acc prov purpose budget rest
            (acc ++ (fetch_properties prov nb purpose budget).map (fun r => (nb, r))),
          collectResults_acc prov purpose budget rest
            ([] ++ (fetch_properties prov nb purpose budget).map (fun r => (nb, r)))]
      simp

theorem collectResults_append (prov : Provider) (purpose : String) (budget : Option ℚ)
    (l1 l2 : List String) :
    collectResults prov purpose budget (l1 ++ l2) [] =
      collectResults prov purpose budget l1 [] ++ collectResults prov purpose budget l2 [] := by
  induction l1 with
  | nil => simp [collectResults]
  | cons nb l1 ih =>
      show collectResults prov purpose budget (l1 ++ l2)
            ([] ++ (fetch_properties prov nb purpose budget).map (fun r => (nb, r))) = _
      rw [collectResults_acc prov purpose budget (l1 ++ l2), ih]
      show _ = collectResults prov purpose budget l1
            ([] ++ (fetch_properties prov nb purpose budget).map (fun r => (nb, r))) ++
          collectResults prov purpose budget l2 []
      rw [collectResults_acc prov purpose budget l1
            ([] ++ (fetch_properties prov nb purpose budget).map (fun r => (nb, r)))]
      simp

/-! ### Concrete instances used by the theorems -/

/-- Provider whose every response parses to zero hits. -/
def provEmpty : Provider := fun _ => ProvResp.ok []

/-- Provider whose every request raises. -/
def provFail : Provider := fun _ => ProvResp.exn "Connection timed out"

/-- Scenario A query. -/
def scenarioA : String := "Find apartments for rent in Mirdif under 2M AED"

/-- C1: the claimed villa fallback does not exist.  With a provider returning
zero hits everywhere, the fetch for category "villa" at generic "dubai" issues
exactly one outbound request (so no neighborhood of `DUBAI_VILLA_NEIGHBORHOODS`
is retried) and returns the one-element message record, not the empty result
the claim requires when every candidate fails. -/
theorem C1_counterexample :
    fetch_properties provEmpty "dubai" "sale" none (some "villa") none none =
      [OutRec.messageRec "No properties found."] ∧
    (fetch_propertiesR provEmpty "dubai" "sale" none (some "villa") none none).1.length = 1 ∧
    fetch_properties provEmpty "dubai" "sale" none (some "villa") none none ≠ [] := by
  refine ⟨rfl, rfl, ?_⟩
  decide

/-- C1 (amended): `fetch_properties` performs no fallback at all.  For every
provider and every request with non-empty location and purpose it issues
exactly the one request built by `mkParams`, whatever the category and
response; and a zero-hit response yields the single-element
"No properties found." message record. -/
theorem C1_amended (prov : Provider) (location purpose : String) (budget : Option ℚ)
    (category : Option String) (rooms baths : Option Int)
    (hl : location ≠ "") (hp : purpose ≠ "") :
    (fetch_propertiesR prov location purpose budget category rooms baths).1 =
      [mkParams location purpose budget category rooms baths] ∧
    (prov (mkParams location purpose budget category rooms baths) = ProvResp.ok [] →
      fetch_properties prov location purpose budget category rooms baths =
        [OutRec.messageRec "No properties found."]) := by
  constructor
  · unfold fetch_propertiesR
    rw [if_neg (by simp [hl, hp])]
    cases hres : prov (mkParams location purpose budget category rooms baths) <;> simp
  · intro hok
    unfold fetch_properties fetch_propertiesR
    rw [if_neg (by simp [hl, hp]), hok]
    simp

/-- Witness for the amended C1 at a concrete input. -/
theorem C1_amended_witness :
    (fetch_propertiesR provEmpty "dubai" "sale" none (some "villa") none none).1 =
      [mkParams "dubai" "sale" none (some "villa") none none] ∧
    fetch_properties provEmpty "dubai" "sale" none (some "villa") none none =
      [OutRec.messageRec "No properties found."] :=
  ⟨(C1_amended provEmpty "dubai" "sale" none (some "villa") none none
      (by decide) (by decide)).1,
   (C1_amended provEmpty "dubai" "sale" none (some "villa") none none
      (by decide) (by decide)).2 rfl⟩

/-- C10: `fetch_properties` never returns the empty list, and the three
one-element shapes arise exactly as the claim describes: missing parameters,
a raised request/parse exception, and a successful call with zero hits. -/
theorem C10_never_empty (prov : Provider) (location purpose : String) (budget : Option ℚ)
    (category : Option String) (rooms baths : Option Int) :
    fetch_properties prov location purpose budget category rooms baths ≠ [] ∧
    ((location = "" ∨ purpose = "") →
      fetch_properties prov location purpose budget category rooms baths =
        [OutRec.errorRec "Missing required parameters: location and purpose"]) ∧
    (∀ e, location ≠ "" → purpose ≠ "" →
      prov (mkParams location purpose budget category rooms baths) = ProvResp.exn e →
      fetch_properties prov location purpose budget category rooms baths =
        [OutRec.errorRec ("API request failed: " ++ e)]) ∧
    (location ≠ "" → purpose ≠ "" →
      prov (mkParams location purpose budget category rooms baths) = ProvResp.ok [] →
      fetch_properties prov location purpose budget category rooms baths =
        [OutRec.messageRec "No properties found."]) := by
  refine ⟨?_, ?_, ?_, ?_⟩
  · unfold fetch_properties fetch_propertiesR
    by_cases hc : (location = "" || purpose = "") = true
    · rw [if_pos hc]
      simp
    · rw [if_neg hc]
      cases hres : prov (mkParams location purpose budget category rooms baths) with
      | exn e => simp
      | ok hits =>
          by_cases hh : (hits.map (normalizeRecord purpose)).isEmpty = true
          · simp [hh]
          · simp only [hh]
            simp only [Bool.false_eq_true, if_false]
            exact fun hnil => hh (by rw [hnil]; rfl)
  · intro hmiss
    unfold fetch_properties fetch_propertiesR
    rw [if_pos (by rcases hmiss with h | h <;> simp [h])]
  · intro e hl hp hexn
    unfold fetch_properties fetch_propertiesR
    rw [if_neg (by simp [hl, hp]), hexn]
  · intro hl hp hok
    unfold fetch_properties fetch_propertiesR
    rw [if_neg (by simp [hl, hp]), hok]
    simp

/-- Witness for C10 at concrete inputs. -/
theorem C10_never_empty_witness :
    fetch_properties provEmpty "dubai" "sale" none none none none ≠ [] ∧
    fetch_properties provEmpty "" "sale" none none none none =
      [OutRec.errorRec "Missing required parameters: location and purpose"] ∧
    fetch_properties provFail "dubai" "sale" none none none none =
      [OutRec.errorRec ("API request failed: " ++ "Connection timed out")] ∧
    fetch_properties provEmpty "dubai" "sale" none none none none =
      [OutRec.messageRec "No properties found."] :=
  ⟨(C10_never_empty provEmpty "dubai" "sale" none none none none).1,
   (C10_never_empty provEmpty "" "sale" none none none none).2.1 (Or.inl rfl),
   (C10_never_empty provFail "dubai" "sale" none none none none).2.2.1
     "Connection timed out" (by decide) (by decide) rfl,
   (C10_never_empty provEmpty "dubai" "sale" none none none none).2.2.2
     (by decide) (by decide) rfl⟩

/-- C3: the claimed category extraction does not exist.  For Scenario A's
query, the single outbound request the agent issues carries no category
filter at all — in particular not the "apartment" identifier "4" the claim
says is passed to the provider. -/
theorem C3_counterexample :
    (agentRequests provEmpty scenarioA).map Params.categoryExternalID = [none] ∧
    ∀ p ∈ agentRequests provEmpty scenarioA, p.categoryExternalID ≠ some "4" := by
  refine ⟨by decide, by decide⟩

/-- Budget extracted from Scenario A. -/
theorem budget_scenarioA : extract_budget scenarioA = some 2000000 := by
  have h1 : extract_budgetE scenarioA = Except.ok (some (((2 : ℕ) : ℚ) * 1000000)) := by
    unfold extract_budgetE
    rw [show searchMillion (pyLower scenarioA) = some ['2'] by decide]
    rfl
  unfold extract_budget
  rw [h1]
  norm_num

/-- C3 (amended): Scenario A's query extracts location "mirdif", purpose
"rent" and budget 2,000,000, and the agent issues exactly one request with
those filters and no category filter (no category is ever extracted). -/
theorem C3_amended :
    extract_neighborhood scenarioA = some "mirdif" ∧
    extract_purpose scenarioA = "rent" ∧
    extract_budget scenarioA = some 2000000 ∧
    agentRequests provEmpty scenarioA =
      [{ locationExternalIDs := "5002", purpose := "for-rent", hitsPerPage := "20",
         categoryExternalID := none, maxPrice := some 2000000,
         roomsMin := none, bathsMin := none }] := by
  refine ⟨by decide, by decide, budget_scenarioA, ?_⟩
  unfold agentRequests
  simp only [budget_scenarioA, show extract_purpose scenarioA = "rent" by decide,
    show neighborhoodsToSearch scenarioA = ["mirdif"] by decide]
  decide

/-- The query of the C5 counterexample: it contains "under 2.5M AED", but an
earlier match of the million pattern wins. -/
def badBudgetQuery : String := "under 9M AED and under 2.5M AED"

/-- Budget extracted from the counterexample query: the leftmost match wins. -/
theorem budget_badQuery : extract_budget badBudgetQuery = some 9000000 := by
  have h1 : extract_budgetE badBudgetQuery = Except.ok (some (((9 : ℕ) : ℚ) * 1000000)) := by
    unfold extract_budgetE
    rw [show searchMillion (pyLower badBudgetQuery) = some ['9'] by decide]
    rfl
  unfold extract_budget
  rw [h1]
  norm_num

/-- C5: the universally quantified form fails.  A query containing
"under 2.5M AED" can extract a budget different from 2,500,000, because
`re.search` takes the leftmost match of the million pattern. -/
theorem C5_counterexample :
    containsSub "under 2.5m aed".toList (pyLower badBudgetQuery) = true ∧
    extract_budget badBudgetQuery = some 9000000 ∧
    extract_budget badBudgetQuery ≠ some 2500000 := by
  refine ⟨by decide, budget_badQuery, ?_⟩
  rw [budget_badQuery]
  norm_num

/-- Budget extracted from the million form. -/
theorem budget_million25 : extract_budget "under 2.5M AED" = some 2500000 := by
  have h1 : extract_budgetE "under 2.5M AED" =
      Except.ok (some ((((2 : ℕ) : ℚ) + ((5 : ℕ) : ℚ) / (10 : ℚ) ^ 1) * 1000000)) := by
    unfold extract_budgetE
    rw [show searchMillion (pyLower "under 2.5M AED") = some ['2', '.', '5'] by decide]
    rfl
  unfold extract_budget
  rw [h1]
  norm_num

/-- Budget extracted from the plain-digits form. -/
theorem budget_plain25 : extract_budget "under 2,500,000 AED" = some 2500000 := by
  have h1 : extract_budgetE "under 2,500,000 AED" = Except.ok (some ((2500000 : ℕ) : ℚ)) := by
    unfold extract_budgetE plainBranchE
    rw [show searchMillion (pyLower "under 2,500,000 AED") = none by decide]
    rfl
  unfold extract_budget
  rw [h1]
  norm_num

/-- C5 (amended): the queries "under 2.5M AED" and "under 2,500,000 AED"
themselves extract exactly 2,500,000; in general the budget is determined by
the leftmost million-pattern match (scaled by 10^6) whenever that pattern
matches with a parseable group — the plain pattern is then ignored — and the
budget is unset when neither pattern matches. -/
theorem C5_amended (q : String) :
    extract_budget "under 2.5M AED" = some 2500000 ∧
    extract_budget "under 2,500,000 AED" = some 2500000 ∧
    (∀ g v, searchMillion (pyLower q) = some g → parseDigitsDots g = some v →
      extract_budget q = some (v * 1000000)) ∧
    (searchMillion (pyLower q) = none → searchPlain (pyLower q) = none →
      extract_budget q = none) := by
  refine ⟨budget_million25, budget_plain25, ?_, ?_⟩
  · intro g v hg hv
    unfold extract_budget extract_budgetE
    simp only [hg, hv]
  · intro hm hpl
    unfold extract_budget extract_budgetE plainBranchE
    simp only [hm, hpl]

/-- Witness for the amended C5 at concrete inputs. -/
theorem C5_amended_witness :
    extract_budget "under 2.5M AED" = some 2500000 ∧ extract_budget "hello" = none :=
  ⟨(C5_amended "hello").1, (C5_amended "hello").2.2.2 (by decide) (by decide)⟩

/-- A canonical listing dict with a numeric size of 100 sqm. -/
def listing100 : FPItem :=
  { price := some (PyNum.num 500000), size := some (PyNum.num 100),
    type := some "Villa", location := some "Mirdif" }

/-- A listing dict whose size field holds a non-numeric string. -/
def strSizeItem : FPItem :=
  { price := none, size := some (PyNum.str "not a number"),
    type := none, location := none }

/-- The conversion of 100 sqm: 100 × 10.7639 rounded to 2 decimals is 1076.39. -/
theorem pyRound2_100sqm : pyRound2 (100 * (107639 / 10000 : ℚ)) = 107639 / 100 := by
  unfold pyRound2 roundHalfEven
  rw [show (100 : ℚ) * (107639 / 10000) * 100 = ((107639 : ℤ) : ℚ) by norm_num]
  rw [Int.floor_intCast]
  norm_num

/-- Rounding an exact zero. -/
theorem pyRound2_zero : pyRound2 (0 : ℚ) = 0 := by
  unfold pyRound2 roundHalfEven
  rw [show (0 : ℚ) * 100 = ((0 : ℤ) : ℚ) by norm_num]
  rw [Int.floor_intCast]
  norm_num

/-- The size fragment rendered for `listing100`. -/
theorem size_str_listing100 : fp_size_str listing100 = "1,076.39 sq.m." := by
  have hsq : fp_size_sqft listing100 = some ((107639 : ℚ) / 100) := by
    have h0 : fp_size_sqft listing100 = some (pyRound2 (100 * (107639 / 10000 : ℚ))) := by
      unfold fp_size_sqft fp_size_sqm listing100
      simp only [truthyNum]
      norm_num
    rw [h0, pyRound2_100sqm]
  unfold fp_size_str
  rw [hsq]
  show (if (107639 : ℚ) / 100 ≠ 0 then fmtFloatG ((107639 : ℚ) / 100) ++ " sq.m." else "N/A") =
    "1,076.39 sq.m."
  rw [if_pos (by norm_num : ((107639 : ℚ) / 100) ≠ 0)]
  unfold fmtFloatG
  rw [show ((107639 : ℚ) / 100) * 100 = ((107639 : ℕ) : ℚ) by norm_num]
  rw [show (((107639 : ℕ) : ℚ)).num = 107639 by norm_num]
  decide

/-- C9: a listing with area 100.0 sqm converts to 100 × 10.7639 rounded to
two decimals, i.e. 1076.39, and that value is what the rendered size string
shows; a string-valued (non-numeric) area renders the "N/A" marker. -/
theorem C9_area_conversion (it : FPItem) :
    fp_size_sqft listing100 = some (pyRound2 (100 * (107639 / 10000 : ℚ))) ∧
    pyRound2 (100 * (107639 / 10000 : ℚ)) = 107639 / 100 ∧
    fp_size_str listing100 = "1,076.39 sq.m." ∧
    (∀ s, it.size = some (PyNum.str s) → fp_size_str it = "N/A") := by
  refine ⟨?_, pyRound2_100sqm, size_str_listing100, ?_⟩
  · unfold fp_size_sqft fp_size_sqm listing100
    simp only [truthyNum]
    norm_num
  · intro s hs
    unfold fp_size_str fp_size_sqft fp_size_sqm
    rw [hs]
    cases hval : truthyNum (PyNum.str s) with
    | true => simp [hval]
    | false => simp [hval, pyRound2_zero]

/-- Witness for C9 at a concrete non-numeric size. -/
theorem C9_area_conversion_witness :
    fp_size_sqft listing100 = some (pyRound2 (100 * (107639 / 10000 : ℚ))) ∧
    fp_size_str strSizeItem = "N/A" :=
  ⟨(C9_area_conversion listing100).1,
   (C9_area_conversion strSizeItem).2.2.2 "not a number" rfl⟩

/-- C4: the ranking is an ascending stable sort by `price_key` — where a
missing or non-numeric price is +∞ — truncated to at most 20 entries: the
result has length ≤ 20, is sorted, never places a priced listing after an
unpriced one, and the sort is a stable permutation of its input. -/
theorem C4_ranking (l : List (String × OutRec)) :
    (rankResults l).length ≤ 20 ∧
    (rankResults l).Pairwise (fun a b => price_key a.2 ≤ price_key b.2) ∧
    (rankResults l).Pairwise (fun a b => price_key a.2 = ⊤ → price_key b.2 = ⊤) ∧
    (sortK (fun t => price_key t.2) l).Perm l ∧
    (∀ k : WithTop ℚ,
      (sortK (fun t => price_key t.2) l).filter (fun t => decide (price_key t.2 = k)) =
        l.filter (fun t => decide (price_key t.2 = k))) := by
  have hsorted : (rankResults l).Pairwise (fun a b => price_key a.2 ≤ price_key b.2) :=
    List.Pairwise.sublist (List.take_sublist 20 _)
      (sortK_pairwise (fun t => price_key t.2) l)
  refine ⟨?_, hsorted, ?_, sortK_perm _ l, fun k => sortK_filter _ k l⟩
  · rw [rankResults, List.length_take]
    exact inf_le_left
  · exact hsorted.imp (fun hab ha => top_le_iff.mp (ha ▸ hab))

/-- With a provider that parses to zero hits everywhere, the loop appends
exactly one tagged message record per neighborhood. -/
theorem collect_msg (prov : Provider) (hprov : ∀ p, prov p = ProvResp.ok [])
    (purpose : String) (budget : Option ℚ) (hpur : purpose ≠ "") :
    ∀ nbs : List String, (∀ nb ∈ nbs, nb ≠ "") →
      collectResults prov purpose budget nbs [] =
        nbs.map (fun nb => (nb, OutRec.messageRec "No properties found."))
  | [], _ => by simp [collectResults]
  | nb :: rest, h => by
      have hnb : nb ≠ "" := h nb (List.mem_cons_self nb rest)
      have hfetch : fetch_properties prov nb purpose budget none none none =
          [OutRec.messageRec "No properties found."] := by
        unfold fetch_properties fetch_propertiesR
        rw [if_neg (by simp [hnb, hpur]), hprov]
        simp
      show collectResults prov purpose budget rest
            ([] ++ (fetch_properties prov nb purpose budget).map (fun r => (nb, r))) = _
      rw [collectResults_acc prov purpose budget rest,
          collect_msg prov hprov purpose budget hpur rest
            (fun x hx => h x (List.mem_cons_of_mem nb hx)),
          hfetch]
      simp

/-- Every neighborhood in scope is one of the known keys. -/
theorem scope_subset_keys (q : String) :
    ∀ nb ∈ neighborhoodsToSearch q, nb ∈ nbKeys := by
  intro nb hnb
  unfold neighborhoodsToSearch at hnb
  cases hex : extract_neighborhood q with
  | some nb0 =>
      rw [hex] at hnb
      simp only [List.mem_singleton] at hnb
      subst hnb
      exact List.mem_of_find?_eq_some hex
  | none =>
      rw [hex] at hnb
      exact hnb

/-- No known neighborhood key is the empty string. -/
theorem nbKeys_not_empty_str : ∀ nb ∈ nbKeys, nb ≠ "" := by decide

/-- The extracted purpose is never the empty string. -/
theorem purpose_ne_empty (q : String) : extract_purpose q ≠ "" := by
  unfold extract_purpose
  split
  · decide
  · decide

/-- C2 fails: with every neighborhood yielding zero listings, the run does
not reach the "no properties found" terminal state — it hands the seven
tagged message records to summarization. -/
theorem C2_counterexample :
    run_real_estate_agent provEmpty "show me apartments" ≠ Outcome.notFound ∧
    run_real_estate_agent provEmpty "show me apartments" =
      Outcome.results
        (nbKeys.map (fun nb => (nb, OutRec.messageRec "No properties found."))) ∧
    nbKeys.map (fun nb => (nb, OutRec.messageRec "No properties found.")) ≠ [] := by
  have hcol : collectResults provEmpty (extract_purpose "show me apartments")
      (extract_budget "show me apartments") (neighborhoodsToSearch "show me apartments") [] =
      nbKeys.map (fun nb => (nb, OutRec.messageRec "No properties found.")) := by
    rw [show neighborhoodsToSearch "show me apartments" = nbKeys by decide]
    exact collect_msg provEmpty (fun _ => rfl) _ _
      (purpose_ne_empty "show me apartments") nbKeys (by decide)
  have hrun : run_real_estate_agent provEmpty "show me apartments" =
      Outcome.results (rankResults
        (nbKeys.map (fun nb => (nb, OutRec.messageRec "No properties found.")))) := by
    unfold run_real_estate_agent
    rw [hcol, if_neg (by decide)]
  rw [hrun]
  refine ⟨by simp, ?_, by decide⟩
  rw [show rankResults
        (nbKeys.map (fun nb => (nb, OutRec.messageRec "No properties found."))) =
      nbKeys.map (fun nb => (nb, OutRec.messageRec "No properties found.")) by decide]

/-- C2 (amended): when every call parses to zero hits, each neighborhood
contributes its one-element "No properties found." message record, and the
run reaches summarization with that non-empty tagged list — the notFound
terminal state is not taken. -/
theorem C2_amended (prov : Provider) (q : String) (hprov : ∀ p, prov p = ProvResp.ok []) :
    ∃ l, run_real_estate_agent prov q = Outcome.results l ∧ l ≠ [] ∧
      l.length = (neighborhoodsToSearch q).length ∧
      ∀ x ∈ l, x.2 = OutRec.messageRec "No properties found." := by
  have hcol : collectResults prov (extract_purpose q) (extract_budget q)
      (neighborhoodsToSearch q) [] =
      (neighborhoodsToSearch q).map
        (fun nb => (nb, OutRec.messageRec "No properties found.")) :=
    collect_msg prov hprov _ _ (purpose_ne_empty q) (neighborhoodsToSearch q)
      (fun nb h => nbKeys_not_empty_str nb (scope_subset_keys q nb h))
  have hscope_ne : neighborhoodsToSearch q ≠ [] := by
    unfold neighborhoodsToSearch
    cases extract_neighborhood q <;> simp [nbKeys, NEIGHBORHOOD_SCHOOLS]
  have hscope_le : (neighborhoodsToSearch q).length ≤ 20 := by
    unfold neighborhoodsToSearch
    cases extract_neighborhood q <;> simp [nbKeys, NEIGHBORHOOD_SCHOOLS]
  have hmap_ne : (neighborhoodsToSearch q).map
      (fun nb => (nb, OutRec.messageRec "No properties found.")) ≠ [] := by
    simpa using hscope_ne
  have hlen : ((neighborhoodsToSearch q).map
      (fun nb => (nb, OutRec.messageRec "No properties found."))).length =
      (neighborhoodsToSearch q).length := List.length_map _ _
  refine ⟨rankResults ((neighborhoodsToSearch q).map
      (fun nb => (nb, OutRec.messageRec "No properties found."))), ?_, ?_, ?_, ?_⟩
  · unfold run_real_estate_agent
    rw [hcol, if_neg (by simpa [List.isEmpty_iff] using hmap_ne)]
  · have hpos : 0 < (rankResults ((neighborhoodsToSearch q).map
        (fun nb => (nb, OutRec.messageRec "No properties found.")))).length := by
      rw [rankResults, List.length_take,
        (sortK_perm (fun t : String × OutRec => price_key t.2)
          ((neighborhoodsToSearch q).map
            (fun nb => (nb, OutRec.messageRec "No properties found.")))).length_eq, hlen]
      have : 0 < (neighborhoodsToSearch q).length :=
        List.length_pos.mpr hscope_ne
      omega
    exact List.ne_nil_of_length_pos hpos
  · rw [rankResults, List.length_take,
      (sortK_perm (fun t : String × OutRec => price_key t.2)
        ((neighborhoodsToSearch q).map
          (fun nb => (nb, OutRec.messageRec "No properties found.")))).length_eq, hlen]
    omega
  · intro x hx
    have hx1 : x ∈ sortK (fun t => price_key t.2)
        ((neighborhoodsToSearch q).map
          (fun nb => (nb, OutRec.messageRec "No properties found."))) :=
      List.Sublist.mem hx (List.take_sublist 20 _)
    have hx2 : x ∈ (neighborhoodsToSearch q).map
        (fun nb => (nb, OutRec.messageRec "No properties found.")) :=
      ((sortK_perm (fun t => price_key t.2) _).mem_iff).mp hx1
    rcases List.mem_map.mp hx2 with ⟨nb, _, rfl⟩
    rfl

/-- Witness for the amended C2 at a concrete provider and query. -/
theorem C2_amended_witness :
    ∃ l, run_real_estate_agent provEmpty "show me villas" = Outcome.results l ∧ l ≠ [] ∧
      l.length = (neighborhoodsToSearch "show me villas").length ∧
      ∀ x ∈ l, x.2 = OutRec.messageRec "No properties found." :=
  C2_amended provEmpty "show me villas" (fun _ => rfl)

/-- C6: a raised request/parse exception is contained as a one-element error
record, and the loop keeps processing the neighborhoods after the failing
one: the collected results decompose around the error entry. -/
theorem C6_error_containment (prov : Provider) (location purpose : String)
    (budget : Option ℚ) (category : Option String) (rooms baths : Option Int)
    (e : String) (hl : location ≠ "") (hp : purpose ≠ "")
    (hexn : prov (mkParams location purpose budget category rooms baths) = ProvResp.exn e) :
    fetch_properties prov location purpose budget category rooms baths =
      [OutRec.errorRec ("API request failed: " ++ e)] ∧
    (prov (mkParams location purpose budget none none none) = ProvResp.exn e →
      ∀ pre post : List String,
        collectResults prov purpose budget (pre ++ location :: post) [] =
          collectResults prov purpose budget pre [] ++
            (location, OutRec.errorRec ("API request failed: " ++ e)) ::
              collectResults prov purpose budget post []) := by
  constructor
  · unfold fetch_properties fetch_propertiesR
    rw [if_neg (by simp [hl, hp]), hexn]
  · intro h0 pre post
    have hfetch : fetch_properties prov location purpose budget none none none =
        [OutRec.errorRec ("API request failed: " ++ e)] := by
      unfold fetch_properties fetch_propertiesR
      rw [if_neg (by simp [hl, hp]), h0]
    rw [collectResults_append prov purpose budget pre (location :: post)]
    have hcons : collectResults prov purpose budget (location :: post) [] =
        (location, OutRec.errorRec ("API request failed: " ++ e)) ::
          collectResults prov purpose budget post [] := by
      show collectResults prov purpose budget post
            ([] ++ (fetch_properties prov location purpose budget).map
              (fun r => (location, r))) = _
      rw [collectResults_acc prov purpose budget post, hfetch]
      simp
    rw [hcons]

/-- Witness for C6: a failing provider, a concrete request, and a concrete
scope around the failing neighborhood. -/
theorem C6_error_containment_witness :
    fetch_properties provFail "mirdif" "rent" none none none none =
      [OutRec.errorRec ("API request failed: " ++ "Connection timed out")] ∧
    collectResults provFail "rent" none (["arabian ranches"] ++ "mirdif" :: ["jumeirah"]) [] =
      collectResults provFail "rent" none ["arabian ranches"] [] ++
        ("mirdif", OutRec.errorRec ("API request failed: " ++ "Connection timed out")) ::
          collectResults provFail "rent" none ["jumeirah"] [] :=
  ⟨(C6_error_containment provFail "mirdif" "rent" none none none none
      "Connection timed out" (by decide) (by decide) rfl).1,
   (C6_error_containment provFail "mirdif" "rent" none none none none
      "Connection timed out" (by decide) (by decide) rfl).2 rfl
      ["arabian ranches"] ["jumeirah"]⟩

/-- `extract_budgetE` always returns `Except.ok`: the `try`/`except` blocks
catch every float failure. -/
theorem extract_budgetE_isOk (q : String) : ∃ r, extract_budgetE q = Except.ok r := by
  unfold extract_budgetE plainBranchE
  rcases hm : searchMillion (pyLower q) with _ | g
  · rcases hp : searchPlain (pyLower q) with _ | g2
    · exact ⟨none, by simp only [hm, hp]⟩
    · rcases hd : parseDigitsDots (g2.filter (fun c => c ≠ ',')) with _ | v
      · exact ⟨none, by simp only [hm, hp, hd]⟩
      · exact ⟨some v, by simp only [hm, hp, hd]⟩
  · rcases hd : parseDigitsDots g with _ | v
    · rcases hp : searchPlain (pyLower q) with _ | g2
      · exact ⟨none, by simp only [hm, hd, hp]⟩
      · rcases hd2 : parseDigitsDots (g2.filter (fun c => c ≠ ',')) with _ | v2
        · exact ⟨none, by simp only [hm, hd, hp, hd2]⟩
        · exact ⟨some v2, by simp only [hm, hd, hp, hd2]⟩
    · exact ⟨some (v * 1000000), by simp only [hm, hd]⟩

/-- C7: every extraction is total and exception-free — the budget extractor
never lets an exception escape, the purpose is always one of the two values,
absence of any neighborhood substring yields `none`, and a matched million
pattern whose group fails `float` falls through, yielding unset when the
plain pattern finds nothing either. -/
theorem C7_total (q : String) :
    extract_budgetE q = Except.ok (extract_budget q) ∧
    (extract_purpose q = "rent" ∨ extract_purpose q = "sale") ∧
    ((∀ nb ∈ nbKeys, containsSub nb.toList (pyLower q) = false) →
      extract_neighborhood q = none) ∧
    (∀ g, searchMillion (pyLower q) = some g → parseDigitsDots g = none →
      searchPlain (pyLower q) = none → extract_budget q = none) := by
  refine ⟨?_, ?_, ?_, ?_⟩
  · obtain ⟨r, hr⟩ := extract_budgetE_isOk q
    rw [hr]
    unfold extract_budget
    rw [hr]
  · unfold extract_purpose
    split
    · exact Or.inl rfl
    · exact Or.inr rfl
  · intro h
    unfold extract_neighborhood
    refine List.find?_eq_none.mpr ?_
    intro nb hnb
    simp only [Bool.not_eq_true]
    exact h nb hnb
  · intro g hg hp hpl
    unfold extract_budget extract_budgetE plainBranchE
    simp only [hg, hp, hpl]

/-- Witness for C7: a query whose million pattern matches with a malformed
group "." — float fails, no plain match, so the budget is unset without an
exception; the query names no neighborhood and selects the default purpose. -/
theorem C7_total_witness :
    extract_budget "under . M AED" = none ∧
    extract_neighborhood "under . M AED" = none ∧
    (extract_purpose "under . M AED" = "rent" ∨
      extract_purpose "under . M AED" = "sale") :=
  ⟨(C7_total "under . M AED").2.2.2 ['.'] (by decide) (by decide) (by decide),
   (C7_total "under . M AED").2.2.1 (by decide),
   (C7_total "under . M AED").2.1⟩

/-- C8: normalization takes the category name from the last element of the
category list (default "property"), the location label from the last
breadcrumb (default ""), the area from float coercion with 0.0 on failure,
and synthesizes the detail URL from the template exactly when the external
identifier is present and non-empty. -/
theorem C8_normalization (purpose : String) (it : RawItem) :
    ((it.category = none ∨ it.category = some []) →
      (normalizeItem purpose it).type = "property") ∧
    (∀ cs e, it.category = some cs → cs.getLast? = some { name := some e } →
      (normalizeItem purpose it).type = e) ∧
    ((it.location = none ∨ it.location = some []) →
      (normalizeItem purpose it).location = "") ∧
    (∀ cs e, it.location = some cs → cs.getLast? = some { name := some e } →
      (normalizeItem purpose it).location = e) ∧
    (∀ v, floatTry (areaChain it) = some v → (normalizeItem purpose it).size = v) ∧
    (floatTry (areaChain it) = none → (normalizeItem purpose it).size = 0) ∧
    (∀ eid, it.externalID = some eid → eid ≠ "" →
      (normalizeItem purpose it).url =
        "https://www.bayut.com/property/details-" ++ eid ++ ".html") ∧
    ((it.externalID = none ∨ it.externalID = some "") →
      (normalizeItem purpose it).url = "") := by
  refine ⟨?_, ?_, ?_, ?_, ?_, ?_, ?_, ?_⟩
  · rintro (h | h) <;> simp [normalizeItem, lastNameD, h]
  · intro cs e h1 h2
    simp [normalizeItem, lastNameD, h1, h2]
  · rintro (h | h) <;> simp [normalizeItem, lastNameD, h]
  · intro cs e h1 h2
    simp [normalizeItem, lastNameD, h1, h2]
  · intro v h
    simp [normalizeItem, h]
  · intro h
    simp [normalizeItem, h]
  · intro eid h1 h2
    simp [normalizeItem, h1, h2]
  · rintro (h | h) <;> simp [normalizeItem, h]

/-- A concrete raw provider record. -/
def demoRaw : RawItem :=
  { category := some [{ name := some "Residential" }, { name := some "Villas" }],
    location := some [{ name := some "Dubai" }, { name := some "Palm Jumeirah" }],
    price := some (PyNum.num 1000000),
    area := some (PyNum.num 250),
    externalID := some "4321-aBc" }

/-- Witness for C8 on a concrete record. -/
theorem C8_normalization_witness :
    (normalizeItem "sale" demoRaw).type = "Villas" ∧
    (normalizeItem "sale" demoRaw).location = "Palm Jumeirah" ∧
    (normalizeItem "sale" demoRaw).size = 250 ∧
    (normalizeItem "sale" demoRaw).url =
      "https://www.bayut.com/property/details-" ++ "4321-aBc" ++ ".html" :=
  ⟨(C8_normalization "sale" demoRaw).2.1 _ "Villas" rfl rfl,
   (C8_normalization "sale" demoRaw).2.2.2.1 _ "Palm Jumeirah" rfl rfl,
   (C8_normalization "sale" demoRaw).2.2.2.2.1 250 rfl,
   (C8_normalization "sale" demoRaw).2.2.2.2.2.2.1 "4321-aBc" rfl (by decide)⟩

end RealEstate
